import Mathlib

/-!
Verification of the scenario financial model of the STU sensitivity-analysis
application.  The per-floorplan rent adjustment calculation appears twice in
`src/frontend/src/App.tsx`: once inside `exportToPDF` (lines 211-228) and once
inside the on-screen floorplan table of `App` (lines 686-702).  Both copies are
embedded here over exact rational arithmetic; JavaScript numbers are modelled
as `ℚ`.  The scenario aggregator and the input-validation layer live in the
backend, which is not part of the visible sources, so those are modelled from
the specification and marked as such.
-/

namespace STU

/-- A floorplan record (`Floorplan` in `types.ts`); only the numeric fields
that enter the calculation are kept, the string identity fields (`id`,
`name`, `unit_type`, ...) play no role in any figure. -/
structure Floorplan where
  unit_count : ℚ
  square_footage : ℚ
  base_rent : ℚ
  amenity_rent : ℚ
  deriving DecidableEq, Repr

/-- A scenario's adjustment parameters (`Scenario` in `types.ts`).
`concession_type` is declared in TypeScript as the union
`'none' | 'percentage' | 'dollar' | 'free_months'`, but the calculation code
compares it against string literals and silently falls through for any other
string, so we keep it as a `String`. -/
structure Scenario where
  base_rent_pct_adj : ℚ
  base_rent_dollar_adj : ℚ
  amenity_rent_pct_adj : ℚ
  amenity_rent_dollar_adj : ℚ
  concession_type : String
  concession_value : ℚ
  deriving DecidableEq, Repr

/-- The five figures the per-floorplan calculation produces. -/
structure FloorplanFigures where
  adjustedBase : ℚ
  adjustedAmenity : ℚ
  grossRent : ℚ
  concessionAmount : ℚ
  netEffective : ℚ
  deriving DecidableEq, Repr

/-- The per-floorplan calculation as written inside `exportToPDF`
(`App.tsx` lines 211-228): percentage adjustment first, dollar adjustment
added on top, then one concession branch selected by string comparison with
a fall-through default of no concession. -/
def floorplanFiguresPDF (fp : Floorplan) (s : Scenario) : FloorplanFigures :=
  let adjustedBase := fp.base_rent * (1 + s.base_rent_pct_adj) + s.base_rent_dollar_adj
  let adjustedAmenity := fp.amenity_rent * (1 + s.amenity_rent_pct_adj) + s.amenity_rent_dollar_adj
  let grossRent := adjustedBase + adjustedAmenity
  if s.concession_type = "percentage" then
    let concessionAmount := grossRent * (s.concession_value / 100)
    { adjustedBase := adjustedBase, adjustedAmenity := adjustedAmenity,
      grossRent := grossRent, concessionAmount := concessionAmount,
      netEffective := grossRent - concessionAmount }
  else if s.concession_type = "dollar" then
    { adjustedBase := adjustedBase, adjustedAmenity := adjustedAmenity,
      grossRent := grossRent, concessionAmount := s.concession_value,
      netEffective := max 0 (grossRent - s.concession_value) }
  else if s.concession_type = "free_months" then
    { adjustedBase := adjustedBase, adjustedAmenity := adjustedAmenity,
      grossRent := grossRent,
      concessionAmount := grossRent * (s.concession_value / 12),
      netEffective := grossRent * ((12 - s.concession_value) / 12) }
  else
    { adjustedBase := adjustedBase, adjustedAmenity := adjustedAmenity,
      grossRent := grossRent, concessionAmount := 0,
      netEffective := grossRent }

/-- The per-floorplan calculation as written inside the on-screen floorplan
table of the `App` component (`App.tsx` lines 686-702); a verbatim duplicate
of the PDF-export copy, transcribed independently from those lines. -/
def floorplanFiguresTable (fp : Floorplan) (s : Scenario) : FloorplanFigures :=
  let adjustedBase := fp.base_rent * (1 + s.base_rent_pct_adj) + s.base_rent_dollar_adj
  let adjustedAmenity := fp.amenity_rent * (1 + s.amenity_rent_pct_adj) + s.amenity_rent_dollar_adj
  let grossRent := adjustedBase + adjustedAmenity
  if s.concession_type = "percentage" then
    let concessionAmount := grossRent * (s.concession_value / 100)
    { adjustedBase := adjustedBase, adjustedAmenity := adjustedAmenity,
      grossRent := grossRent, concessionAmount := concessionAmount,
      netEffective := grossRent - concessionAmount }
  else if s.concession_type = "dollar" then
    { adjustedBase := adjustedBase, adjustedAmenity := adjustedAmenity,
      grossRent := grossRent, concessionAmount := s.concession_value,
      netEffective := max 0 (grossRent - s.concession_value) }
  else if s.concession_type = "free_months" then
    { adjustedBase := adjustedBase, adjustedAmenity := adjustedAmenity,
      grossRent := grossRent,
      concessionAmount := grossRent * (s.concession_value / 12),
      netEffective := grossRent * ((12 - s.concession_value) / 12) }
  else
    { adjustedBase := adjustedBase, adjustedAmenity := adjustedAmenity,
      grossRent := grossRent, concessionAmount := 0,
      netEffective := grossRent }

/-- The adjusted base rent expression shared by both copies of the
calculation (`App.tsx` lines 212 and 686). -/
def adjBaseOf (fp : Floorplan) (s : Scenario) : ℚ :=
  fp.base_rent * (1 + s.base_rent_pct_adj) + s.base_rent_dollar_adj

/-- The adjusted amenity rent expression shared by both copies of the
calculation (`App.tsx` lines 213 and 687). -/
def adjAmenityOf (fp : Floorplan) (s : Scenario) : ℚ :=
  fp.amenity_rent * (1 + s.amenity_rent_pct_adj) + s.amenity_rent_dollar_adj

/-- The gross rent expression shared by both copies of the calculation
(`App.tsx` lines 214 and 688). -/
def grossOf (fp : Floorplan) (s : Scenario) : ℚ :=
  adjBaseOf fp s + adjAmenityOf fp s

/-- The error kinds of the engine, from spec §7 (the error taxonomy is not
visible in the frontend sources). -/
inductive EngineError where
  | InvalidInput
  | DivisionUndefined
  | MismatchedInventory
  deriving DecidableEq, Repr

/-- Modelled from the spec: the backend entry point of the Rent Adjustment
Calculator is not among the visible sources (only its HTTP caller
`scenarioApi.calculate` in `api.ts` is).  Per spec §4.1/§7 it fails with the
`InvalidInput` kind when `unit_count < 0`, `square_footage ≤ 0`, or
`base_rent`/`amenity_rent` is negative, and otherwise returns the figures of
the (visible) per-floorplan calculation. -/
def calculateFloorplanFigures (fp : Floorplan) (s : Scenario) :
    Except EngineError FloorplanFigures :=
  if fp.unit_count < 0 ∨ fp.square_footage ≤ 0 ∨ fp.base_rent < 0 ∨ fp.amenity_rent < 0 then
    .error .InvalidInput
  else
    .ok (floorplanFiguresTable fp s)

/-- The aggregate metrics of a scenario (`ScenarioResults` in `types.ts`). -/
structure ScenarioResults where
  total_annual_revenue : ℚ
  avg_rent_per_unit : ℚ
  revenue_per_sqft : ℚ
  weighted_avg_rent : ℚ
  deriving DecidableEq, Repr

/-- Modelled from the spec: the backend Scenario Aggregator is not among the
visible sources (only its HTTP caller and the `ScenarioResults` shape are).
Per spec §4.2/§7 it weights each floorplan's net effective rent by
`unit_count`, multiplies by 12 for annual revenue, divides by total units
(resp. total weighted square footage) for the per-unit (resp. per-sqft)
metrics, and returns 0 instead of propagating a non-finite value when a
denominator is 0; `weighted_avg_rent` is computed identically to
`avg_rent_per_unit`. -/
def calculateScenarioResults (floorplans : List Floorplan) (s : Scenario) :
    ScenarioResults :=
  let weightedNet :=
    (floorplans.map (fun fp => (floorplanFiguresTable fp s).netEffective * fp.unit_count)).sum
  let totalUnits := (floorplans.map (fun fp => fp.unit_count)).sum
  let totalSqft := (floorplans.map (fun fp => fp.square_footage * fp.unit_count)).sum
  { total_annual_revenue := weightedNet * 12
    avg_rent_per_unit := if totalUnits = 0 then 0 else weightedNet / totalUnits
    revenue_per_sqft := if totalSqft = 0 then 0 else weightedNet / totalSqft
    weighted_avg_rent := if totalUnits = 0 then 0 else weightedNet / totalUnits }

/-! Concrete fixtures, used by witnesses and counterexamples.  `fpSpec` is the
concrete floorplan of spec §8. -/

def fpSpec : Floorplan :=
  { unit_count := 10, square_footage := 750, base_rent := 1000, amenity_rent := 100 }

def fpZeroRent : Floorplan :=
  { unit_count := 1, square_footage := 500, base_rent := 0, amenity_rent := 0 }

def fpNegCount : Floorplan :=
  { unit_count := -1, square_footage := 750, base_rent := 1000, amenity_rent := 100 }

def fpZeroUnits : Floorplan :=
  { unit_count := 0, square_footage := 750, base_rent := 1000, amenity_rent := 100 }

def sNone : Scenario :=
  { base_rent_pct_adj := 0, base_rent_dollar_adj := 0,
    amenity_rent_pct_adj := 0, amenity_rent_dollar_adj := 0,
    concession_type := "none", concession_value := 0 }

def sPct150 : Scenario :=
  { sNone with concession_type := "percentage", concession_value := 150 }

def sPct110 : Scenario :=
  { sNone with concession_type := "percentage", concession_value := 110 }

def sDollar5000 : Scenario :=
  { sNone with concession_type := "dollar", concession_value := 5000 }

def sFreeMonths2 : Scenario :=
  { sNone with concession_type := "free_months", concession_value := 2 }

def sWaived : Scenario :=
  { sNone with concession_type := "waived", concession_value := 25 }

/-! ### Helper lemmas: the four branches of the calculation -/

/-- Spec §8 concrete scenario: `base_rent = 1000`, `amenity_rent = 100`,
`base_rent_pct_adj = 0.05`, dollar concession of 50 gives adjusted base 1050,
gross 1150, net effective 1100. -/
example :
    floorplanFiguresTable fpSpec
      { sNone with
        base_rent_pct_adj := 1/20,
        concession_type := "dollar",
        concession_value := 50 } =
    { adjustedBase := 1050, adjustedAmenity := 100, grossRent := 1150,
      concessionAmount := 50, netEffective := 1100 } := by
  norm_num [floorplanFiguresTable, fpSpec, sNone]
  decide

/-- In every branch, the `adjustedBase` field is the shared prelude value. -/
lemma table_adjustedBase (fp : Floorplan) (s : Scenario) :
    (floorplanFiguresTable fp s).adjustedBase = adjBaseOf fp s := by
  simp only [floorplanFiguresTable]
  split
  · rfl
  · split
    · rfl
    · split <;> rfl

/-- In every branch, the `adjustedAmenity` field is the shared prelude value. -/
lemma table_adjustedAmenity (fp : Floorplan) (s : Scenario) :
    (floorplanFiguresTable fp s).adjustedAmenity = adjAmenityOf fp s := by
  simp only [floorplanFiguresTable]
  split
  · rfl
  · split
    · rfl
    · split <;> rfl

/-- In every branch, the `grossRent` field is the shared prelude value. -/
lemma table_grossRent (fp : Floorplan) (s : Scenario) :
    (floorplanFiguresTable fp s).grossRent = grossOf fp s := by
  simp only [floorplanFiguresTable]
  split
  · rfl
  · split
    · rfl
    · split <;> rfl

/-- The `percentage` branch of the calculation. -/
lemma table_eq_of_percentage (fp : Floorplan) (s : Scenario)
    (h : s.concession_type = "percentage") :
    floorplanFiguresTable fp s =
      { adjustedBase := adjBaseOf fp s, adjustedAmenity := adjAmenityOf fp s,
        grossRent := grossOf fp s,
        concessionAmount := grossOf fp s * (s.concession_value / 100),
        netEffective := grossOf fp s - grossOf fp s * (s.concession_value / 100) } := by
  simp only [floorplanFiguresTable]
  rw [h, if_pos rfl]
  rfl

/-- The `dollar` branch of the calculation. -/
lemma table_eq_of_dollar (fp : Floorplan) (s : Scenario)
    (h : s.concession_type = "dollar") :
    floorplanFiguresTable fp s =
      { adjustedBase := adjBaseOf fp s, adjustedAmenity := adjAmenityOf fp s,
        grossRent := grossOf fp s,
        concessionAmount := s.concession_value,
        netEffective := max 0 (grossOf fp s - s.concession_value) } := by
  simp only [floorplanFiguresTable]
  rw [h, if_neg (by decide), if_pos rfl]
  rfl

/-- The `free_months` branch of the calculation. -/
lemma table_eq_of_free_months (fp : Floorplan) (s : Scenario)
    (h : s.concession_type = "free_months") :
    floorplanFiguresTable fp s =
      { adjustedBase := adjBaseOf fp s, adjustedAmenity := adjAmenityOf fp s,
        grossRent := grossOf fp s,
        concessionAmount := grossOf fp s * (s.concession_value / 12),
        netEffective := grossOf fp s * ((12 - s.concession_value) / 12) } := by
  simp only [floorplanFiguresTable]
  rw [h, if_neg (by decide), if_neg (by decide), if_pos rfl]
  rfl

/-- The fall-through default branch of the calculation: no concession. -/
lemma table_eq_of_default (fp : Floorplan) (s : Scenario)
    (h1 : s.concession_type ≠ "percentage")
    (h2 : s.concession_type ≠ "dollar")
    (h3 : s.concession_type ≠ "free_months") :
    floorplanFiguresTable fp s =
      { adjustedBase := adjBaseOf fp s, adjustedAmenity := adjAmenityOf fp s,
        grossRent := grossOf fp s,
        concessionAmount := 0,
        netEffective := grossOf fp s } := by
  simp only [floorplanFiguresTable]
  rw [if_neg h1, if_neg h2, if_neg h3]
  rfl

/-- None of the prelude expressions depends on the concession fields. -/
lemma grossOf_update_concession (fp : Floorplan) (s : Scenario) (c : String) (v : ℚ) :
    grossOf fp { s with concession_type := c, concession_value := v } = grossOf fp s := rfl

lemma adjBaseOf_update_ct (fp : Floorplan) (s : Scenario) (c : String) :
    adjBaseOf fp { s with concession_type := c } = adjBaseOf fp s := rfl

lemma adjAmenityOf_update_ct (fp : Floorplan) (s : Scenario) (c : String) :
    adjAmenityOf fp { s with concession_type := c } = adjAmenityOf fp s := rfl

lemma grossOf_update_ct (fp : Floorplan) (s : Scenario) (c : String) :
    grossOf fp { s with concession_type := c } = grossOf fp s := rfl

/-- The two transcriptions are definitionally the same function. -/
lemma pdf_eq_table (fp : Floorplan) (s : Scenario) :
    floorplanFiguresPDF fp s = floorplanFiguresTable fp s := rfl

/-! ### Claim theorems -/

/-- Claim C1: in both copies of the calculation, `adjustedBase` and
`adjustedAmenity` apply the percentage adjustment multiplicatively and then
add the dollar adjustment on top, and `grossRent` is their sum, for every
floorplan and every scenario. -/
theorem adjustment_order_multiplicative_then_additive (fp : Floorplan) (s : Scenario) :
    ((floorplanFiguresTable fp s).adjustedBase
        = fp.base_rent * (1 + s.base_rent_pct_adj) + s.base_rent_dollar_adj ∧
     (floorplanFiguresTable fp s).adjustedAmenity
        = fp.amenity_rent * (1 + s.amenity_rent_pct_adj) + s.amenity_rent_dollar_adj ∧
     (floorplanFiguresTable fp s).grossRent
        = (floorplanFiguresTable fp s).adjustedBase
          + (floorplanFiguresTable fp s).adjustedAmenity) ∧
    ((floorplanFiguresPDF fp s).adjustedBase
        = fp.base_rent * (1 + s.base_rent_pct_adj) + s.base_rent_dollar_adj ∧
     (floorplanFiguresPDF fp s).adjustedAmenity
        = fp.amenity_rent * (1 + s.amenity_rent_pct_adj) + s.amenity_rent_dollar_adj ∧
     (floorplanFiguresPDF fp s).grossRent
        = (floorplanFiguresPDF fp s).adjustedBase
          + (floorplanFiguresPDF fp s).adjustedAmenity) := by
  have hb := table_adjustedBase fp s
  have ha := table_adjustedAmenity fp s
  have hg := table_grossRent fp s
  constructor
  · exact ⟨hb, ha, by rw [hb, ha, hg]; rfl⟩
  · rw [pdf_eq_table]
    exact ⟨hb, ha, by rw [hb, ha, hg]; rfl⟩

/-- Claim C2: with a `dollar` concession, the concession amount is the raw
concession value and the net effective rent is `max 0 (gross - value)`, hence
never negative however large the concession is. -/
theorem dollar_concession_floored_at_zero (fp : Floorplan) (s : Scenario)
    (h : s.concession_type = "dollar") :
    (floorplanFiguresTable fp s).concessionAmount = s.concession_value ∧
    (floorplanFiguresTable fp s).netEffective
      = max 0 ((floorplanFiguresTable fp s).grossRent - s.concession_value) ∧
    0 ≤ (floorplanFiguresTable fp s).netEffective := by
  rw [table_eq_of_dollar fp s h]
  exact ⟨rfl, rfl, le_max_left 0 _⟩

/-- Witness for C2: the §8 floorplan with a 5000-dollar concession against a
1100 gross still yields a non-negative (indeed zero-clamped) net effective. -/
theorem dollar_concession_floored_at_zero_witness :
    (floorplanFiguresTable fpSpec sDollar5000).concessionAmount
      = sDollar5000.concession_value ∧
    (floorplanFiguresTable fpSpec sDollar5000).netEffective
      = max 0 ((floorplanFiguresTable fpSpec sDollar5000).grossRent
          - sDollar5000.concession_value) ∧
    0 ≤ (floorplanFiguresTable fpSpec sDollar5000).netEffective :=
  dollar_concession_floored_at_zero fpSpec sDollar5000 rfl

/-- Counterexample for C3 as stated: with both rents 0 the gross rent is 0,
which is non-negative, and a 150 percent concession yields a net effective of
0, which is not negative. -/
theorem percentage_over_100_on_zero_gross_cx :
    sPct150.concession_type = "percentage" ∧
    100 < sPct150.concession_value ∧
    0 ≤ (floorplanFiguresTable fpZeroRent sPct150).grossRent ∧
    ¬ (floorplanFiguresTable fpZeroRent sPct150).netEffective < 0 := by
  refine ⟨rfl, by norm_num [sPct150, sNone], ?_, ?_⟩ <;>
  · rw [table_eq_of_percentage fpZeroRent sPct150 rfl]
    norm_num [grossOf, adjBaseOf, adjAmenityOf, fpZeroRent, sPct150, sNone]

/-- Claim C3 (amended: a concession above 100 percent makes the net effective
rent negative whenever the gross rent is positive, rather than merely
non-negative): with a `percentage` concession of value `x`,
`concessionAmount = grossRent * (x / 100)` and
`netEffective = grossRent - concessionAmount = grossRent * (1 - x / 100)`
exactly, with no floor. -/
theorem percentage_concession_formula (fp : Floorplan) (s : Scenario)
    (h : s.concession_type = "percentage") :
    (floorplanFiguresTable fp s).concessionAmount
      = (floorplanFiguresTable fp s).grossRent * (s.concession_value / 100) ∧
    (floorplanFiguresTable fp s).netEffective
      = (floorplanFiguresTable fp s).grossRent
        - (floorplanFiguresTable fp s).concessionAmount ∧
    (floorplanFiguresTable fp s).netEffective
      = (floorplanFiguresTable fp s).grossRent * (1 - s.concession_value / 100) ∧
    (100 < s.concession_value → 0 < (floorplanFiguresTable fp s).grossRent →
      (floorplanFiguresTable fp s).netEffective < 0) := by
  rw [table_eq_of_percentage fp s h]
  dsimp only
  refine ⟨rfl, rfl, by ring, ?_⟩
  intro hv hg
  have h1 : (1 : ℚ) - s.concession_value / 100 < 0 := by linarith
  calc grossOf fp s - grossOf fp s * (s.concession_value / 100)
      = grossOf fp s * (1 - s.concession_value / 100) := by ring
    _ < 0 := mul_neg_of_pos_of_neg hg h1

/-- Witness for C3 (amended), on the §8 floorplan with a 110 percent
concession: gross 1100 is positive and the net effective is negative. -/
theorem percentage_concession_formula_witness :
    ((floorplanFiguresTable fpSpec sPct110).concessionAmount
      = (floorplanFiguresTable fpSpec sPct110).grossRent
        * (sPct110.concession_value / 100) ∧
    (floorplanFiguresTable fpSpec sPct110).netEffective
      = (floorplanFiguresTable fpSpec sPct110).grossRent
        - (floorplanFiguresTable fpSpec sPct110).concessionAmount ∧
    (floorplanFiguresTable fpSpec sPct110).netEffective
      = (floorplanFiguresTable fpSpec sPct110).grossRent
        * (1 - sPct110.concession_value / 100) ∧
    (100 < sPct110.concession_value → 0 < (floorplanFiguresTable fpSpec sPct110).grossRent →
      (floorplanFiguresTable fpSpec sPct110).netEffective < 0)) ∧
    (floorplanFiguresTable fpSpec sPct110).netEffective < 0 := by
  refine ⟨percentage_concession_formula fpSpec sPct110 rfl, ?_⟩
  exact (percentage_concession_formula fpSpec sPct110 rfl).2.2.2
    (by norm_num [sPct110, sNone])
    (by rw [table_grossRent]
        norm_num [grossOf, adjBaseOf, adjAmenityOf, fpSpec, sPct110, sNone])

/-- Claim C4: with a `free_months` concession of value `v`,
`concessionAmount = grossRent * (v / 12)` and
`netEffective = grossRent * ((12 - v) / 12)` with no clamp; `v = 0` produces
exactly the figures of `concession_type = "none"` and `v = 12` produces a net
effective of 0. -/
theorem free_months_concession_formula (fp : Floorplan) (s : Scenario)
    (h : s.concession_type = "free_months") :
    (floorplanFiguresTable fp s).concessionAmount
      = (floorplanFiguresTable fp s).grossRent * (s.concession_value / 12) ∧
    (floorplanFiguresTable fp s).netEffective
      = (floorplanFiguresTable fp s).grossRent * ((12 - s.concession_value) / 12) ∧
    (s.concession_value = 0 →
      floorplanFiguresTable fp s
        = floorplanFiguresTable fp { s with concession_type := "none" }) ∧
    (s.concession_value = 12 → (floorplanFiguresTable fp s).netEffective = 0) := by
  have hfree := table_eq_of_free_months fp s h
  refine ⟨by rw [hfree], by rw [hfree], ?_, ?_⟩
  · intro hv
    rw [hfree, table_eq_of_default fp { s with concession_type := "none" }
          (by exact (by decide : ("none" : String) ≠ "percentage"))
          (by exact (by decide : ("none" : String) ≠ "dollar"))
          (by exact (by decide : ("none" : String) ≠ "free_months"))]
    simp only [FloorplanFigures.mk.injEq]
    refine ⟨rfl, rfl, rfl, ?_, ?_⟩
    · rw [hv]; norm_num
    · show grossOf fp s * ((12 - s.concession_value) / 12) = grossOf fp s
      rw [hv]; norm_num
  · intro hv
    rw [hfree]
    dsimp only
    rw [hv]
    norm_num

/-- Witness for C4: the §8 floorplan with 2 free months: the hypotheses are
discharged at a concrete scenario. -/
theorem free_months_concession_formula_witness :
    (floorplanFiguresTable fpSpec sFreeMonths2).concessionAmount
      = (floorplanFiguresTable fpSpec sFreeMonths2).grossRent
        * (sFreeMonths2.concession_value / 12) ∧
    (floorplanFiguresTable fpSpec sFreeMonths2).netEffective
      = (floorplanFiguresTable fpSpec sFreeMonths2).grossRent
        * ((12 - sFreeMonths2.concession_value) / 12) ∧
    (sFreeMonths2.concession_value = 0 →
      floorplanFiguresTable fpSpec sFreeMonths2
        = floorplanFiguresTable fpSpec { sFreeMonths2 with concession_type := "none" }) ∧
    (sFreeMonths2.concession_value = 12 →
      (floorplanFiguresTable fpSpec sFreeMonths2).netEffective = 0) :=
  free_months_concession_formula fpSpec sFreeMonths2 rfl

/-- Claim C5 (spec-modelled validation layer): the calculator fails with the
`InvalidInput` kind exactly on floorplans with `unit_count < 0`,
`square_footage ≤ 0`, or a negative rent, and for every other input it
returns the computed figures (it never throws on numeric edge cases). -/
theorem invalid_input_rejection (fp : Floorplan) (s : Scenario) :
    ((fp.unit_count < 0 ∨ fp.square_footage ≤ 0 ∨ fp.base_rent < 0 ∨ fp.amenity_rent < 0) →
      calculateFloorplanFigures fp s = Except.error EngineError.InvalidInput) ∧
    (¬ (fp.unit_count < 0 ∨ fp.square_footage ≤ 0 ∨ fp.base_rent < 0 ∨ fp.amenity_rent < 0) →
      calculateFloorplanFigures fp s = Except.ok (floorplanFiguresTable fp s)) := by
  constructor <;> intro h <;> unfold calculateFloorplanFigures
  · rw [if_pos h]
  · rw [if_neg h]

/-- Witness for C5: a floorplan with `unit_count = -1` is rejected with
`InvalidInput`, and the valid §8 floorplan yields computed figures. -/
theorem invalid_input_rejection_witness :
    calculateFloorplanFigures fpNegCount sNone = Except.error EngineError.InvalidInput ∧
    calculateFloorplanFigures fpSpec sNone = Except.ok (floorplanFiguresTable fpSpec sNone) :=
  ⟨(invalid_input_rejection fpNegCount sNone).1 (Or.inl (by norm_num [fpNegCount])),
   (invalid_input_rejection fpSpec sNone).2 (by norm_num [fpSpec])⟩

/-- Claim C6 (spec-modelled aggregator): when every floorplan of the list has
`unit_count = 0`, the aggregate `avg_rent_per_unit` and `revenue_per_sqft`
are both 0 (the zero-denominator policy), not a propagated non-finite
value. -/
theorem zero_unit_aggregation_returns_zero (l : List Floorplan) (s : Scenario)
    (h : ∀ fp ∈ l, fp.unit_count = 0) :
    (calculateScenarioResults l s).avg_rent_per_unit = 0 ∧
    (calculateScenarioResults l s).revenue_per_sqft = 0 := by
  have hu : (l.map (fun fp => fp.unit_count)).sum = 0 := by
    apply List.sum_eq_zero
    intro x hx
    obtain ⟨fp, hfp, rfl⟩ := List.mem_map.mp hx
    exact h fp hfp
  have hs : (l.map (fun fp => fp.square_footage * fp.unit_count)).sum = 0 := by
    apply List.sum_eq_zero
    intro x hx
    obtain ⟨fp, hfp, rfl⟩ := List.mem_map.mp hx
    rw [h fp hfp, mul_zero]
  constructor <;> simp [calculateScenarioResults, hu, hs]

/-- Witness for C6: a one-floorplan property whose only floorplan has zero
units aggregates to zero average rent and zero revenue per square foot. -/
theorem zero_unit_aggregation_returns_zero_witness :
    (calculateScenarioResults [fpZeroUnits] sNone).avg_rent_per_unit = 0 ∧
    (calculateScenarioResults [fpZeroUnits] sNone).revenue_per_sqft = 0 :=
  zero_unit_aggregation_returns_zero [fpZeroUnits] sNone
    (by intro fp hfp; rw [List.mem_singleton.mp hfp]; rfl)

/-- Claim C7: the calculation embedded in the PDF-export path and the one
embedded in the on-screen table path are equal as functions: they produce
identical figures for every floorplan and scenario. -/
theorem pdf_and_table_calculations_agree (fp : Floorplan) (s : Scenario) :
    floorplanFiguresPDF fp s = floorplanFiguresTable fp s := rfl

/-- Claim C8: a scenario with all four adjustments at zero and
`concession_type = "none"` leaves the rent unchanged: the net effective rent
is `base_rent + amenity_rent`. -/
theorem identity_scenario_preserves_rent (fp : Floorplan) (s : Scenario)
    (h1 : s.base_rent_pct_adj = 0) (h2 : s.amenity_rent_pct_adj = 0)
    (h3 : s.base_rent_dollar_adj = 0) (h4 : s.amenity_rent_dollar_adj = 0)
    (h5 : s.concession_type = "none") :
    (floorplanFiguresTable fp s).netEffective = fp.base_rent + fp.amenity_rent := by
  rw [table_eq_of_default fp s (by rw [h5]; decide) (by rw [h5]; decide) (by rw [h5]; decide)]
  dsimp only
  simp only [grossOf, adjBaseOf, adjAmenityOf, h1, h2, h3, h4]
  ring

/-- Witness for C8: the identity scenario on the §8 floorplan returns
`1000 + 100`. -/
theorem identity_scenario_preserves_rent_witness :
    (floorplanFiguresTable fpSpec sNone).netEffective
      = fpSpec.base_rent + fpSpec.amenity_rent :=
  identity_scenario_preserves_rent fpSpec sNone rfl rfl rfl rfl rfl

/-- Claim C9: any concession type other than `"percentage"`, `"dollar"` and
`"free_months"` — including the declared `"none"` and any unrecognized
string — falls through to the default branch: no concession and
`netEffective = grossRent`. -/
theorem unrecognized_concession_type_defaults (fp : Floorplan) (s : Scenario)
    (h1 : s.concession_type ≠ "percentage")
    (h2 : s.concession_type ≠ "dollar")
    (h3 : s.concession_type ≠ "free_months") :
    (floorplanFiguresTable fp s).concessionAmount = 0 ∧
    (floorplanFiguresTable fp s).netEffective = (floorplanFiguresTable fp s).grossRent := by
  rw [table_eq_of_default fp s h1 h2 h3]
  exact ⟨rfl, rfl⟩

/-- Witness for C9: the unrecognized concession type `"waived"` (not part of
the declared union) falls through to the default branch. -/
theorem unrecognized_concession_type_defaults_witness :
    (floorplanFiguresTable fpSpec sWaived).concessionAmount = 0 ∧
    (floorplanFiguresTable fpSpec sWaived).netEffective
      = (floorplanFiguresTable fpSpec sWaived).grossRent :=
  unrecognized_concession_type_defaults fpSpec sWaived
    (by decide) (by decide) (by decide)

/-- Claim C10: for the `"none"`, `"percentage"` and `"free_months"` types
(the first via the default branch), `netEffective + concessionAmount`
recovers `grossRent` exactly; for `"dollar"` that identity holds exactly when
the concession does not exceed the gross rent, and once it does, the clamp
makes `netEffective + concessionAmount` strictly exceed `grossRent`. -/
theorem concession_accounting_identity (fp : Floorplan) (s : Scenario) :
    ((s.concession_type = "none" ∨ s.concession_type = "percentage" ∨
        s.concession_type = "free_months") →
      (floorplanFiguresTable fp s).netEffective + (floorplanFiguresTable fp s).concessionAmount
        = (floorplanFiguresTable fp s).grossRent) ∧
    (s.concession_type = "dollar" →
      (((floorplanFiguresTable fp s).netEffective + (floorplanFiguresTable fp s).concessionAmount
          = (floorplanFiguresTable fp s).grossRent) ↔
        s.concession_value ≤ (floorplanFiguresTable fp s).grossRent)) ∧
    (s.concession_type = "dollar" →
      (floorplanFiguresTable fp s).grossRent < s.concession_value →
      (floorplanFiguresTable fp s).grossRent
        < (floorplanFiguresTable fp s).netEffective
          + (floorplanFiguresTable fp s).concessionAmount) := by
  refine ⟨?_, ?_, ?_⟩
  · rintro (h | h | h)
    · rw [table_eq_of_default fp s (by rw [h]; decide) (by rw [h]; decide) (by rw [h]; decide)]
      dsimp only
      ring
    · rw [table_eq_of_percentage fp s h]
      dsimp only
      ring
    · rw [table_eq_of_free_months fp s h]
      dsimp only
      ring
  · intro h
    rw [table_eq_of_dollar fp s h]
    dsimp only
    rcases le_total s.concession_value (grossOf fp s) with hle | hge
    · rw [max_eq_right (by linarith : (0:ℚ) ≤ grossOf fp s - s.concession_value)]
      constructor
      · intro _; exact hle
      · intro _; ring
    · rw [max_eq_left (by linarith : grossOf fp s - s.concession_value ≤ (0:ℚ))]
      constructor
      · intro heq; linarith
      · intro hle2; linarith
  · intro h hlt
    rw [table_eq_of_dollar fp s h] at hlt ⊢
    dsimp only at hlt ⊢
    rw [max_eq_left (by linarith : grossOf fp s - s.concession_value ≤ (0:ℚ))]
    linarith

/-- Witness for C10: the default-branch identity at the concrete identity
scenario. -/
theorem concession_accounting_identity_witness :
    (floorplanFiguresTable fpSpec sNone).netEffective
      + (floorplanFiguresTable fpSpec sNone).concessionAmount
        = (floorplanFiguresTable fpSpec sNone).grossRent :=
  (concession_accounting_identity fpSpec sNone).1 (Or.inl rfl)

end STU
